import Mathlib

/-!
Shallow embedding of the document-processing backend (FastAPI service in
backend/main.py) and proofs about its pipeline, upload, search and status
handlers.  External collaborators (blob storage, the OCR client, the
search-index client, database commits) are modelled as explicit inputs:
a call that may raise is an `Except String` value, the database is a list
of rows, the search index a list of keyed records.
-/

namespace TheDump

/-- Embedding of `class ProcessingStatus(PyEnum)`. -/
inductive ProcessingStatus where
  | PENDING
  | OCR_IN_PROGRESS
  | OCR_COMPLETED
  | INDEXING_IN_PROGRESS
  | COMPLETED
  | FAILED
deriving DecidableEq, Repr

/-- The string stored in the `status` column: `ProcessingStatus.X.value`. -/
def ProcessingStatus.value : ProcessingStatus → String
  | .PENDING => "PENDING"
  | .OCR_IN_PROGRESS => "OCR_IN_PROGRESS"
  | .OCR_COMPLETED => "OCR_COMPLETED"
  | .INDEXING_IN_PROGRESS => "INDEXING_IN_PROGRESS"
  | .COMPLETED => "COMPLETED"
  | .FAILED => "FAILED"

/-- Embedding of the SQLAlchemy model `Document` (one row of the
`documents` table).  UUIDs and timestamps are modelled as strings;
`uploaded_at` is optional because the column is set by a default and the
code guards `if doc.uploaded_at`. -/
structure Document where
  document_id : String
  filename : String
  file_type : String
  file_size : String
  gcs_uri : String
  uploaded_at : Option String
  status : String
  error_message : Option String
deriving DecidableEq, Repr

/-- The record submitted to Elasticsearch (the `es_document` dict built in
`process_document_pipeline`). -/
structure EsDocument where
  document_id : String
  filename : String
  gcs_uri : String
  content : String
  uploaded_at : String
deriving DecidableEq, Repr

/-- `db_session.query(Document).filter(Document.document_id == id).first()`. -/
def dbFind (db : List Document) (id : String) : Option Document :=
  db.find? (fun r => r.document_id == id)

/-- Committing `doc.status = st` for the row with the given id
(`db_session.commit()` after the assignment). -/
def dbSetStatus (db : List Document) (id st : String) : List Document :=
  db.map (fun r => if r.document_id == id then { r with status := st } else r)

/-- Committing `doc.status = st; doc.error_message = msg` for the row with
the given id (the failure handler of the pipeline). -/
def dbSetStatusErr (db : List Document) (id st msg : String) : List Document :=
  db.map (fun r =>
    if r.document_id == id then { r with status := st, error_message := some msg } else r)

/-- `ES_CLIENT.index(index=..., id=str(document_id), document=es_document)`:
a keyed upsert into the search index — the record stored under an existing
id is overwritten, a fresh id is appended. -/
def esIndex (es : List (String × EsDocument)) (id : String) (d : EsDocument) :
    List (String × EsDocument) :=
  if es.any (fun p => p.1 == id) then
    es.map (fun p => if p.1 == id then (id, d) else p)
  else
    es ++ [(id, d)]

/-- Result of one pipeline invocation: the database and search index after
the run, and the list of `status` values committed by the run, in commit
order. -/
structure PipelineResult where
  db : List Document
  es : List (String × EsDocument)
  committed : List String
deriving Repr

/-- Embedding of `process_document_pipeline(document_id, gcs_uri, filename)`.
`ocr` stands for the Vision call (`annotate_image` followed by reading
`full_text_annotation.text`): it either returns the extracted text or
raises with a message.  `esWrite` stands for `ES_CLIENT.index`: it either
succeeds or raises.  `now` is `datetime.datetime.now().isoformat()`, used
when the loaded row has no `uploaded_at`.  Every status assignment in the
source is immediately followed by `db_session.commit()`, so each
assignment is modelled as an immediate write to `db`; the
`db_session.rollback()` in the `except` handler therefore has nothing
pending to revert, and the handler then commits `FAILED` together with
`error_message = str(e)`. -/
def process_document_pipeline (db : List Document) (es : List (String × EsDocument))
    (document_id gcs_uri filename : String)
    (ocr : Except String String) (esWrite : Except String Unit) (now : String) :
    PipelineResult :=
  match dbFind db document_id with
  | none => ⟨db, es, []⟩
  | some doc =>
    let db1 := dbSetStatus db document_id ProcessingStatus.OCR_IN_PROGRESS.value
    let t1 := [ProcessingStatus.OCR_IN_PROGRESS.value]
    match ocr with
    | .error e =>
        ⟨dbSetStatusErr db1 document_id ProcessingStatus.FAILED.value e, es,
         t1 ++ [ProcessingStatus.FAILED.value]⟩
    | .ok full_text =>
      let db2 := dbSetStatus db1 document_id ProcessingStatus.OCR_COMPLETED.value
      let t2 := t1 ++ [ProcessingStatus.OCR_COMPLETED.value]
      let db3 := dbSetStatus db2 document_id ProcessingStatus.INDEXING_IN_PROGRESS.value
      let t3 := t2 ++ [ProcessingStatus.INDEXING_IN_PROGRESS.value]
      let es_document : EsDocument :=
        { document_id := document_id, filename := filename, gcs_uri := gcs_uri,
          content := full_text, uploaded_at := doc.uploaded_at.getD now }
      match esWrite with
      | .error e =>
          ⟨dbSetStatusErr db3 document_id ProcessingStatus.FAILED.value e, es,
           t3 ++ [ProcessingStatus.FAILED.value]⟩
      | .ok _ =>
          ⟨dbSetStatus db3 document_id ProcessingStatus.COMPLETED.value,
           esIndex es document_id es_document,
           t3 ++ [ProcessingStatus.COMPLETED.value]⟩

/-- An HTTP error raised by a handler (`HTTPException(status_code, detail)`). -/
structure HTTPErr where
  status_code : Nat
  detail : String
deriving DecidableEq, Repr

/-- The multipart file received by `/upload`; the body bytes are modelled
as a string, so `len(file_content)` is `content.length`. -/
structure UploadFile where
  filename : String
  content_type : String
  content : String
deriving DecidableEq, Repr

/-- The arguments of the `asyncio.create_task(process_document_pipeline(...))`
call scheduled by a successful upload. -/
structure PipelineTask where
  document_id : String
  gcs_uri : String
  filename : String
deriving DecidableEq, Repr

/-- Result of one `/upload` request: the HTTP response (error or the
`{message, document_id}` body), the database and blob store after the
request, and the pipeline task scheduled, if any. -/
structure UploadResult where
  response : Except HTTPErr (String × String)
  db : List Document
  blobs : List (String × String)
  task : Option PipelineTask
deriving Repr

/-- Embedding of `upload_document(file)`.  `gcs_bucket_name` is the
`GCS_BUCKET_NAME` environment value (`None` or empty is falsy in the
`if not GCS_BUCKET_NAME` guard); `document_id` is the freshly generated
`uuid.uuid4()`; `blobUpload` stands for `blob.upload_from_string` and
`dbCommit` for the metadata insert's `db_session.commit()`, each either
succeeding or raising with a message; `now` is the `uploaded_at` value
assigned by the column default at insert time.  The blob store is a list
of `(blob name, content)` pairs. -/
def upload_document (gcs_bucket_name : Option String)
    (db : List Document) (blobs : List (String × String))
    (file : UploadFile) (document_id : String)
    (blobUpload : Except String Unit) (dbCommit : Except String Unit)
    (now : String) : UploadResult :=
  if gcs_bucket_name = none ∨ gcs_bucket_name = some "" then
    ⟨.error ⟨500, "GCS_BUCKET_NAME não configurado."⟩, db, blobs, none⟩
  else
    let bucket := gcs_bucket_name.getD ""
    let blob_name := document_id ++ "/" ++ file.filename
    match blobUpload with
    | .error e =>
        ⟨.error ⟨500, "Erro ao carregar para GCS: " ++ e⟩, db, blobs, none⟩
    | .ok _ =>
      let blobs1 := blobs ++ [(blob_name, file.content)]
      let gcs_uri := "gs://" ++ bucket ++ "/" ++ blob_name
      match dbCommit with
      | .error e =>
          ⟨.error ⟨500, "Erro ao guardar metadados: " ++ e⟩, db, blobs1, none⟩
      | .ok _ =>
        let new_doc : Document :=
          { document_id := document_id, filename := file.filename,
            file_type := file.content_type,
            file_size := toString file.content.length,
            gcs_uri := gcs_uri, uploaded_at := some now,
            status := ProcessingStatus.PENDING.value, error_message := none }
        ⟨.ok ("Upload iniciado.", document_id), db ++ [new_doc], blobs1,
         some ⟨document_id, gcs_uri, file.filename⟩⟩

/-- One hit of the Elasticsearch response: its `_source`, its `_score`
(passed through untouched, so its numeric type is irrelevant and an
integer stands in for it), and the optional highlight fragments under
`highlight.content`. -/
structure SearchHit where
  source : EsDocument
  score : Int
  highlight : Option (List String)
deriving DecidableEq, Repr

/-- One element of the array returned by `/search`. -/
structure SearchResult where
  document_id : String
  filename : String
  gcs_uri : String
  relevance_score : Int
  status : String
  highlight : List String
deriving DecidableEq, Repr

/-- Embedding of the result-building loop of `search_documents(q)`: for
each hit the handler reads `_source`, looks the document up in the
database, and reports the row's status, or the literal string
`'DESCONHECIDO'` when no row matches. -/
def search_documents (db : List Document) (hits : List SearchHit) : List SearchResult :=
  hits.map (fun hit =>
    let doc_id := hit.source.document_id
    let doc_metadata := dbFind db doc_id
    { document_id := doc_id,
      filename := hit.source.filename,
      gcs_uri := hit.source.gcs_uri,
      relevance_score := hit.score,
      status := match doc_metadata with
                | some d => d.status
                | none => "DESCONHECIDO",
      highlight := hit.highlight.getD [] })

/-- The JSON body returned by `/status/{document_id}`. -/
structure StatusView where
  document_id : String
  filename : String
  gcs_uri : String
  status : String
  uploaded_at : Option String
  error_message : Option String
deriving DecidableEq, Repr

/-- Embedding of `get_status(document_id)`: 404 when no row matches,
otherwise the row's fields verbatim. -/
def get_status (db : List Document) (document_id : String) :
    Except HTTPErr StatusView :=
  match dbFind db document_id with
  | none => .error ⟨404, "Documento não encontrado."⟩
  | some doc =>
      .ok { document_id := doc.document_id, filename := doc.filename,
            gcs_uri := doc.gcs_uri, status := doc.status,
            uploaded_at := doc.uploaded_at, error_message := doc.error_message }

/-! ### Helper lemmas about the database and search-index embeddings -/

/-- `find?` over a keyed update: updating every element satisfying `p`
with a `p`-preserving function commutes with `find?`. -/
theorem find?_map_upd {α : Type} (l : List α) (p : α → Bool) (f : α → α)
    (hf : ∀ a, p (f a) = p a) :
    (l.map (fun a => if p a then f a else a)).find? p = (l.find? p).map f := by
  induction l with
  | nil => simp
  | cons a l ih =>
    cases ha : p a with
    | true => simp [ha, hf a]
    | false => simp [ha, ih]

theorem dbFind_dbSetStatus (db : List Document) (id st : String) :
    dbFind (dbSetStatus db id st) id
      = (dbFind db id).map (fun r => { r with status := st }) :=
  find?_map_upd db _ _ (fun _ => rfl)

theorem dbFind_dbSetStatusErr (db : List Document) (id st msg : String) :
    dbFind (dbSetStatusErr db id st msg) id
      = (dbFind db id).map (fun r => { r with status := st, error_message := some msg }) :=
  find?_map_upd db _ _ (fun _ => rfl)

/-- Updating the row of one id leaves lookups of any other id unchanged. -/
theorem find?_map_upd_ne {α : Type} (l : List α) (p q : α → Bool) (f : α → α)
    (hq : ∀ a, q a → ¬ p a) (hqf : ∀ a, q (f a) = q a) :
    (l.map (fun a => if p a then f a else a)).find? q = l.find? q := by
  induction l with
  | nil => simp
  | cons a l ih =>
    cases ha : p a with
    | true =>
      have hqa : q a = false := by
        cases h : q a with
        | true => exact absurd ha (by simpa using hq a h)
        | false => rfl
      have : q (f a) = false := by rw [hqf]; exact hqa
      simp [ha, hqa, this, ih]
    | false =>
      cases h : q a with
      | true => simp [ha, h]
      | false => simp [ha, h, ih]

theorem dbFind_dbSetStatus_ne (db : List Document) (id id' st : String)
    (h : id' ≠ id) :
    dbFind (dbSetStatus db id st) id' = dbFind db id' :=
  find?_map_upd_ne db _ _ _
    (fun a ha hpa => h (by
      have h1 : a.document_id = id' := by simpa using ha
      have h2 : a.document_id = id := by simpa using hpa
      rw [← h1, h2]))
    (fun _ => rfl)

theorem dbFind_dbSetStatusErr_ne (db : List Document) (id id' st msg : String)
    (h : id' ≠ id) :
    dbFind (dbSetStatusErr db id st msg) id' = dbFind db id' :=
  find?_map_upd_ne db _ _ _
    (fun a ha hpa => h (by
      have h1 : a.document_id = id' := by simpa using ha
      have h2 : a.document_id = id := by simpa using hpa
      rw [← h1, h2]))
    (fun _ => rfl)

/-- Appending a fresh row: when no existing row has the id, the appended
row is the one found. -/
theorem dbFind_append_fresh (db : List Document) (r : Document) (id : String)
    (h : dbFind db id = none) (hr : r.document_id = id) :
    dbFind (db ++ [r]) id = some r := by
  unfold dbFind at *
  rw [List.find?_append, h]
  simp [hr]

/-- A record at a fresh key is absent from the map-branch premise. -/
theorem esIndex_cons_ne (p : String × EsDocument) (es : List (String × EsDocument))
    (id : String) (d : EsDocument) (hp : (p.1 == id) = false) :
    esIndex (p :: es) id d = p :: esIndex es id d := by
  have hp' : ¬ p.1 = id := by simpa using hp
  cases h : es.any (fun q => q.1 == id) with
  | true => simp [esIndex, hp, hp', h]
  | false => simp [esIndex, hp, hp', h]

/-- A keyed update over a list in which no element matches is the
identity. -/
theorem map_upd_eq_self {α : Type} (l : List α) (p : α → Bool) (f : α → α)
    (h : ∀ a ∈ l, p a = false) :
    l.map (fun a => if p a then f a else a) = l := by
  induction l with
  | nil => rfl
  | cons a l ih =>
    rw [List.map_cons, h a (by simp), ih (fun b hb => h b (by simp [hb]))]
    simp

/-- `esIndex` is a keyed upsert: under the index invariant that a key
holds at most one record, the records stored under `id` after an
`esIndex es id d` are exactly `[(id, d)]`. -/
theorem esIndex_filter (es : List (String × EsDocument)) (id : String) (d : EsDocument)
    (h : (es.filter (fun p => p.1 == id)).length ≤ 1) :
    (esIndex es id d).filter (fun p => p.1 == id) = [(id, d)] := by
  induction es with
  | nil => simp [esIndex]
  | cons p es ih =>
    cases hp : (p.1 == id) with
    | true =>
      have hany : (p :: es).any (fun q => q.1 == id) = true := by simp [hp]
      have hes : es.filter (fun q => q.1 == id) = [] := by
        rw [List.filter_cons] at h
        simp only [hp, if_true, List.length_cons, Nat.succ_le_succ_iff,
          Nat.le_zero] at h
        exact List.length_eq_zero.mp h
      have hnom : ∀ q ∈ es, (q.1 == id) = false := by
        intro q hq
        cases hque : (q.1 == id) with
        | true =>
          have hmem : q ∈ es.filter (fun q => q.1 == id) :=
            List.mem_filter.mpr ⟨hq, hque⟩
          rw [hes] at hmem
          simp at hmem
        | false => rfl
      have hmb : esIndex (p :: es) id d
          = (p :: es).map (fun q => if q.1 == id then (id, d) else q) := by
        simp [esIndex, hany]
      rw [hmb, List.map_cons, map_upd_eq_self es _ _ hnom]
      simp [hp, hes]
    | false =>
      rw [esIndex_cons_ne p es id d hp]
      rw [List.filter_cons_of_neg (by simp [hp])]
      apply ih
      rwa [List.filter_cons_of_neg (by simp [hp])] at h

/-! ### Sample values used by concrete witnesses -/

/-- A sample persisted row. -/
def docA : Document :=
  { document_id := "a", filename := "invoice.pdf", file_type := "application/pdf",
    file_size := "4", gcs_uri := "gs://bucket/a/invoice.pdf",
    uploaded_at := some "2024-01-01T00:00:00", status := "PENDING",
    error_message := none }

/-- A sample multipart upload. -/
def uploadFileA : UploadFile :=
  { filename := "invoice.pdf", content_type := "application/pdf", content := "%PDF" }

/-- A search hit whose document id has no row in the database. -/
def hitU : SearchHit :=
  { source := { document_id := "u1", filename := "f.pdf",
                gcs_uri := "gs://b/u1/f.pdf", content := "hello",
                uploaded_at := "2024-01-01T00:00:00" },
    score := 2, highlight := some ["em hello em"] }

/-- A sample search-index record. -/
def esDocA : EsDocument :=
  { document_id := "a", filename := "invoice.pdf",
    gcs_uri := "gs://bucket/a/invoice.pdf", content := "first",
    uploaded_at := "2024-01-01T00:00:00" }

/-- A second sample search-index record under the same id. -/
def esDocB : EsDocument :=
  { document_id := "a", filename := "invoice.pdf",
    gcs_uri := "gs://bucket/a/invoice.pdf", content := "second",
    uploaded_at := "2024-01-01T00:00:00" }

/-! ### Claims -/

/-- Claim C9: for every status query, an unknown id yields the 404
not-found outcome, and a known id yields exactly the persisted status,
filename, location URI, upload timestamp and error message of that row. -/
theorem get_status_contract (db : List Document) (d : String) :
    (dbFind db d = none →
      get_status db d = .error ⟨404, "Documento não encontrado."⟩) ∧
    (∀ doc : Document, dbFind db d = some doc →
      get_status db d = .ok
        { document_id := doc.document_id, filename := doc.filename,
          gcs_uri := doc.gcs_uri, status := doc.status,
          uploaded_at := doc.uploaded_at,
          error_message := doc.error_message }) := by
  constructor
  · intro h
    simp [get_status, h]
  · intro doc h
    simp [get_status, h]

/-- Witness for C9: the empty database yields 404 for id `d1`, and the
one-row database holding `docA` yields that row's fields for id `a`. -/
theorem get_status_contract_witness :
    get_status [] "d1" = .error ⟨404, "Documento não encontrado."⟩ ∧
    get_status [docA] "a" = .ok
      { document_id := docA.document_id, filename := docA.filename,
        gcs_uri := docA.gcs_uri, status := docA.status,
        uploaded_at := docA.uploaded_at,
        error_message := docA.error_message } :=
  ⟨(get_status_contract [] "d1").1 rfl,
   (get_status_contract [docA] "a").2 docA rfl⟩

/-- Claim C3, counterexample: a hit whose id has no row in the database is
reported with the literal status string DESCONHECIDO, which is not the
string UNKNOWN the claim names. -/
theorem search_missing_row_unknown_cex :
    (search_documents [] [hitU]).map SearchResult.status = ["DESCONHECIDO"] ∧
    ("DESCONHECIDO" : String) ≠ "UNKNOWN" := by
  exact ⟨rfl, by decide⟩

/-- Claim C3 (amended): every hit is returned (one result per hit, so a
missing metadata row does not fail the search), and a hit whose id has no
row in the database is returned with status DESCONHECIDO — Portuguese for
unknown — rather than the English string UNKNOWN. -/
theorem search_missing_row_status (db : List Document) (hits : List SearchHit) :
    (search_documents db hits).length = hits.length ∧
    ∀ hit ∈ hits, dbFind db hit.source.document_id = none →
      ({ document_id := hit.source.document_id, filename := hit.source.filename,
         gcs_uri := hit.source.gcs_uri, relevance_score := hit.score,
         status := "DESCONHECIDO",
         highlight := hit.highlight.getD [] } : SearchResult)
        ∈ search_documents db hits := by
  constructor
  · simp [search_documents]
  · intro hit hmem hnone
    unfold search_documents
    refine List.mem_map.mpr ⟨hit, hmem, ?_⟩
    simp [hnone]

/-- Witness for C3's amended theorem at a concrete input: searching an
empty database with the single hit `hitU` returns its record with status
DESCONHECIDO. -/
theorem search_missing_row_status_witness :
    ({ document_id := hitU.source.document_id, filename := hitU.source.filename,
       gcs_uri := hitU.source.gcs_uri, relevance_score := hitU.score,
       status := "DESCONHECIDO",
       highlight := hitU.highlight.getD [] } : SearchResult)
      ∈ search_documents [] [hitU] :=
  (search_missing_row_status [] [hitU]).2 hitU (by simp) rfl

/-- Claim C5: when the blob-storage write fails, the upload request fails
with the GCS upload error, no Document row is created, no pipeline task is
scheduled, and the blob store is unchanged. -/
theorem upload_blob_failure (bucket : String) (db : List Document)
    (blobs : List (String × String)) (file : UploadFile) (d e now : String)
    (dbCommit : Except String Unit) (hb : bucket ≠ "") :
    upload_document (some bucket) db blobs file d (.error e) dbCommit now
      = ⟨.error ⟨500, "Erro ao carregar para GCS: " ++ e⟩, db, blobs, none⟩ := by
  simp [upload_document, hb]

/-- Witness for C5 at a concrete input. -/
theorem upload_blob_failure_witness :
    upload_document (some "bucket") [] [] uploadFileA "d" (.error "boom") (.ok ()) "t"
      = ⟨.error ⟨500, "Erro ao carregar para GCS: " ++ "boom"⟩, [], [], none⟩ :=
  upload_blob_failure "bucket" [] [] uploadFileA "d" "boom" "t" (.ok ()) (by decide)

/-- Claim C6: indexing uses the document id as index key, so it is an
idempotent upsert — under the index invariant that a key holds at most one
record, indexing the same id twice leaves exactly one record for that id,
namely the second write. -/
theorem esIndex_idempotent_upsert (es : List (String × EsDocument)) (id : String)
    (d1 d2 : EsDocument) (h : (es.filter (fun p => p.1 == id)).length ≤ 1) :
    (esIndex (esIndex es id d1) id d2).filter (fun p => p.1 == id) = [(id, d2)] := by
  apply esIndex_filter
  rw [esIndex_filter es id d1 h]
  simp

/-- Witness for C6: indexing `esDocA` then `esDocB` under id `a` into the
empty index leaves exactly the record `esDocB` under `a`. -/
theorem esIndex_idempotent_upsert_witness :
    (esIndex (esIndex [] "a" esDocA) "a" esDocB).filter (fun p => p.1 == "a")
      = [("a", esDocB)] :=
  esIndex_idempotent_upsert [] "a" esDocA esDocB (by simp)

/-- Claim C8: an OCR call returning the empty string is a valid non-error
result: the run commits the four success transitions (it does not fail),
the empty content is indexed under the document's id, and the document
ends in status COMPLETED. -/
theorem pipeline_empty_ocr_text (db : List Document)
    (es : List (String × EsDocument)) (d uri fn now : String) (doc : Document)
    (hdoc : dbFind db d = some doc) :
    (process_document_pipeline db es d uri fn (.ok "") (.ok ()) now).committed
        = [ProcessingStatus.OCR_IN_PROGRESS.value, ProcessingStatus.OCR_COMPLETED.value,
           ProcessingStatus.INDEXING_IN_PROGRESS.value, ProcessingStatus.COMPLETED.value] ∧
    (process_document_pipeline db es d uri fn (.ok "") (.ok ()) now).es
        = esIndex es d { document_id := d, filename := fn, gcs_uri := uri,
                         content := "", uploaded_at := doc.uploaded_at.getD now } ∧
    (dbFind (process_document_pipeline db es d uri fn (.ok "") (.ok ()) now).db d).map
        Document.status = some ProcessingStatus.COMPLETED.value := by
  refine ⟨?_, ?_, ?_⟩ <;>
    simp [process_document_pipeline, hdoc, dbFind_dbSetStatus]

/-- Witness for C8 at a concrete input: the one-row database holding
`docA`, empty index, empty OCR text. -/
theorem pipeline_empty_ocr_text_witness :
    (process_document_pipeline [docA] [] "a" "u" "f" (.ok "") (.ok ()) "t").committed
        = [ProcessingStatus.OCR_IN_PROGRESS.value, ProcessingStatus.OCR_COMPLETED.value,
           ProcessingStatus.INDEXING_IN_PROGRESS.value, ProcessingStatus.COMPLETED.value] ∧
    (process_document_pipeline [docA] [] "a" "u" "f" (.ok "") (.ok ()) "t").es
        = esIndex [] "a" { document_id := "a", filename := "f", gcs_uri := "u",
                           content := "", uploaded_at := docA.uploaded_at.getD "t" } ∧
    (dbFind (process_document_pipeline [docA] [] "a" "u" "f" (.ok "") (.ok ()) "t").db "a").map
        Document.status = some ProcessingStatus.COMPLETED.value :=
  pipeline_empty_ocr_text [docA] [] "a" "u" "f" "t" docA rfl

/-- Claim C2, counterexample: an OCR failure whose exception message is
the empty string drives docA's row to status FAILED with
error_message = some "" — the stored message is the exception's message
verbatim but empty, refuting the claim's "hence non-empty". -/
theorem pipeline_failed_message_empty_cex :
    (dbFind (process_document_pipeline [docA] [] "a" "u" "f"
        (.error "") (.ok ()) "t").db "a").map Document.status
      = some ProcessingStatus.FAILED.value ∧
    (dbFind (process_document_pipeline [docA] [] "a" "u" "f"
        (.error "") (.ok ()) "t").db "a").bind Document.error_message
      = some "" ∧
    String.isEmpty "" = true :=
  ⟨rfl, rfl, rfl⟩

/-- Claim C2 (amended): for every run in which a stage after a successful
load raises — the OCR call or the indexing call — the final persisted
status is FAILED, error_message equals the triggering exception's message
verbatim (hence it is empty exactly when that message is empty, and is not
guaranteed non-empty), and the run commits nothing after FAILED: the
commit log ends at FAILED. -/
theorem pipeline_failure_final_failed (db : List Document)
    (es : List (String × EsDocument)) (d uri fn now e : String) (doc : Document)
    (ocr : Except String String) (esw : Except String Unit)
    (hdoc : dbFind db d = some doc)
    (hfail : ocr = .error e ∨ ((∃ s, ocr = .ok s) ∧ esw = .error e)) :
    (dbFind (process_document_pipeline db es d uri fn ocr esw now).db d).map
        Document.status = some ProcessingStatus.FAILED.value ∧
    (dbFind (process_document_pipeline db es d uri fn ocr esw now).db d).bind
        Document.error_message = some e ∧
    (process_document_pipeline db es d uri fn ocr esw now).committed.getLast?
        = some ProcessingStatus.FAILED.value := by
  rcases hfail with h | ⟨⟨s, hs⟩, hesw⟩
  · subst h
    refine ⟨?_, ?_, ?_⟩ <;>
      simp [process_document_pipeline, hdoc, dbFind_dbSetStatus, dbFind_dbSetStatusErr]
  · subst hs
    subst hesw
    refine ⟨?_, ?_, ?_⟩ <;>
      simp [process_document_pipeline, hdoc, dbFind_dbSetStatus, dbFind_dbSetStatusErr]

/-- Witness for C2's amended theorem at a concrete input: an OCR failure
with message "ocr down" on the one-row database holding docA. -/
theorem pipeline_failure_final_failed_witness :
    (dbFind (process_document_pipeline [docA] [] "a" "u" "f"
        (.error "ocr down") (.ok ()) "t").db "a").map Document.status
      = some ProcessingStatus.FAILED.value ∧
    (dbFind (process_document_pipeline [docA] [] "a" "u" "f"
        (.error "ocr down") (.ok ()) "t").db "a").bind Document.error_message
      = some "ocr down" ∧
    (process_document_pipeline [docA] [] "a" "u" "f"
        (.error "ocr down") (.ok ()) "t").committed.getLast?
      = some ProcessingStatus.FAILED.value :=
  pipeline_failure_final_failed [docA] [] "a" "u" "f" "t" "ocr down" docA
    (.error "ocr down") (.ok ()) rfl (Or.inl rfl)

/-- Claim C4: a failing run keeps everything already persisted: the commit
log holds every transition committed before the failure followed only by
FAILED, the search index is left exactly as it was, rows of other ids are
unchanged, and the failing document's row changes only in status and
error_message — stated for an OCR-stage failure and for an indexing-stage
failure. -/
theorem pipeline_failure_frame (db : List Document)
    (es : List (String × EsDocument)) (d uri fn now e : String) (doc : Document)
    (esw : Except String Unit) (hdoc : dbFind db d = some doc) :
    ((process_document_pipeline db es d uri fn (.error e) esw now).committed
        = [ProcessingStatus.OCR_IN_PROGRESS.value, ProcessingStatus.FAILED.value] ∧
     (process_document_pipeline db es d uri fn (.error e) esw now).es = es ∧
     dbFind (process_document_pipeline db es d uri fn (.error e) esw now).db d
        = some { doc with status := ProcessingStatus.FAILED.value,
                          error_message := some e } ∧
     ∀ d2, d2 ≠ d →
       dbFind (process_document_pipeline db es d uri fn (.error e) esw now).db d2
          = dbFind db d2) ∧
    (∀ s, (process_document_pipeline db es d uri fn (.ok s) (.error e) now).committed
        = [ProcessingStatus.OCR_IN_PROGRESS.value, ProcessingStatus.OCR_COMPLETED.value,
           ProcessingStatus.INDEXING_IN_PROGRESS.value, ProcessingStatus.FAILED.value] ∧
     (process_document_pipeline db es d uri fn (.ok s) (.error e) now).es = es ∧
     dbFind (process_document_pipeline db es d uri fn (.ok s) (.error e) now).db d
        = some { doc with status := ProcessingStatus.FAILED.value,
                          error_message := some e } ∧
     ∀ d2, d2 ≠ d →
       dbFind (process_document_pipeline db es d uri fn (.ok s) (.error e) now).db d2
          = dbFind db d2) := by
  constructor
  · refine ⟨?_, ?_, ?_, ?_⟩
    · simp [process_document_pipeline, hdoc]
    · simp [process_document_pipeline, hdoc]
    · simp [process_document_pipeline, hdoc, dbFind_dbSetStatus, dbFind_dbSetStatusErr]
    · intro d2 hne
      simp [process_document_pipeline, hdoc, hne,
        dbFind_dbSetStatus_ne, dbFind_dbSetStatusErr_ne]
  · intro s
    refine ⟨?_, ?_, ?_, ?_⟩
    · simp [process_document_pipeline, hdoc]
    · simp [process_document_pipeline, hdoc]
    · simp [process_document_pipeline, hdoc, dbFind_dbSetStatus, dbFind_dbSetStatusErr]
    · intro d2 hne
      simp [process_document_pipeline, hdoc, hne,
        dbFind_dbSetStatus_ne, dbFind_dbSetStatusErr_ne]

/-- Witness for C4 at a concrete input: an OCR failure and an indexing
failure on the one-row database holding docA and the one-record index. -/
theorem pipeline_failure_frame_witness :
    (process_document_pipeline [docA] [("x", esDocA)] "a" "u" "f"
        (.error "boom") (.ok ()) "t").es = [("x", esDocA)] ∧
    (process_document_pipeline [docA] [("x", esDocA)] "a" "u" "f"
        (.ok "txt") (.error "boom") "t").es = [("x", esDocA)] ∧
    dbFind (process_document_pipeline [docA] [("x", esDocA)] "a" "u" "f"
        (.error "boom") (.ok ()) "t").db "b" = dbFind [docA] "b" :=
  ⟨(pipeline_failure_frame [docA] [("x", esDocA)] "a" "u" "f" "t" "boom" docA
      (.ok ()) rfl).1.2.1,
   ((pipeline_failure_frame [docA] [("x", esDocA)] "a" "u" "f" "t" "boom" docA
      (.ok ()) rfl).2 "txt").2.1,
   (pipeline_failure_frame [docA] [("x", esDocA)] "a" "u" "f" "t" "boom" docA
      (.ok ()) rfl).1.2.2.2 "b" (by decide)⟩

/-- A search-index record for a different document, used in concrete
witnesses about searches that must not return the failed document. -/
def esDocX : EsDocument :=
  { document_id := "x", filename := "x.pdf", gcs_uri := "gs://b/x/x.pdf",
    content := "xtext", uploaded_at := "2024-01-01T00:00:00" }

/-- A search hit built from `esDocX`. -/
def hitX : SearchHit :=
  { source := esDocX, score := 1, highlight := none }

/-- Claim C7: when the OCR call raises, the document is never submitted to
the search index: the index is left unchanged, so — assuming the
document's id was not already in the index — no hit drawn from the
resulting index carries it and no search result returns it; and the row
shows FAILED with the OCR failure's message. -/
theorem ocr_failure_never_searchable (db : List Document)
    (es : List (String × EsDocument)) (d uri fn now e : String) (doc : Document)
    (esw : Except String Unit)
    (hdoc : dbFind db d = some doc)
    (hes : ∀ p ∈ es, p.2.document_id ≠ d) :
    (process_document_pipeline db es d uri fn (.error e) esw now).es = es ∧
    (dbFind (process_document_pipeline db es d uri fn (.error e) esw now).db d).map
        Document.status = some ProcessingStatus.FAILED.value ∧
    (dbFind (process_document_pipeline db es d uri fn (.error e) esw now).db d).bind
        Document.error_message = some e ∧
    ∀ hits : List SearchHit,
      (∀ hit ∈ hits, hit.source ∈
        (process_document_pipeline db es d uri fn (.error e) esw now).es.map Prod.snd) →
      ∀ db2 : List Document, ∀ r ∈ search_documents db2 hits, r.document_id ≠ d := by
  have hesq : (process_document_pipeline db es d uri fn (.error e) esw now).es = es := by
    simp [process_document_pipeline, hdoc]
  refine ⟨hesq, ?_, ?_, ?_⟩
  · simp [process_document_pipeline, hdoc, dbFind_dbSetStatus, dbFind_dbSetStatusErr]
  · simp [process_document_pipeline, hdoc, dbFind_dbSetStatus, dbFind_dbSetStatusErr]
  · intro hits hhits db2 r hr
    rcases List.mem_map.mp (by simpa [search_documents] using hr)
      with ⟨hit, hmem, hrfl⟩
    have hsrc : hit.source ∈ es.map Prod.snd := by
      have := hhits hit hmem
      rwa [hesq] at this
    rcases List.mem_map.mp hsrc with ⟨p, hp, hps⟩
    have hrid : r.document_id = hit.source.document_id := by
      rw [← hrfl]
    rw [hrid, ← hps]
    exact hes p hp

/-- Witness for C7 at concrete inputs: docA's OCR fails while the index
holds only the unrelated record `esDocX`; the index is unchanged and the
search result built from `hitX` does not carry id `a`. -/
theorem ocr_failure_never_searchable_witness :
    (process_document_pipeline [docA] [("x", esDocX)] "a" "u" "f"
        (.error "ocr down") (.ok ()) "t").es = [("x", esDocX)] ∧
    ({ document_id := esDocX.document_id, filename := esDocX.filename,
       gcs_uri := esDocX.gcs_uri, relevance_score := 1,
       status := "DESCONHECIDO", highlight := [] } : SearchResult).document_id
      ≠ "a" :=
  ⟨(ocr_failure_never_searchable [docA] [("x", esDocX)] "a" "u" "f" "t"
      "ocr down" docA (.ok ()) rfl (by decide)).1,
   (ocr_failure_never_searchable [docA] [("x", esDocX)] "a" "u" "f" "t"
      "ocr down" docA (.ok ()) rfl (by decide)).2.2.2
     [hitX] (by decide) []
     { document_id := esDocX.document_id, filename := esDocX.filename,
       gcs_uri := esDocX.gcs_uri, relevance_score := 1,
       status := "DESCONHECIDO", highlight := [] } (by decide)⟩

/-- The Document row created by a successful upload of `file` under id `d`
into the given bucket at time `now` (the record inserted by
`upload_document`). -/
def newDocRow (bucket : String) (file : UploadFile) (d now : String) : Document :=
  { document_id := d, filename := file.filename, file_type := file.content_type,
    file_size := toString file.content.length,
    gcs_uri := "gs://" ++ bucket ++ "/" ++ (d ++ "/" ++ file.filename),
    uploaded_at := some now, status := ProcessingStatus.PENDING.value,
    error_message := none }

/-- Claim C1: for a successful run — bucket configured, fresh id, blob
upload, metadata insert, OCR and indexing all succeeding — the upload
creates the row with persisted status PENDING and schedules the pipeline
task, and the pipeline run then commits OCR_IN_PROGRESS, OCR_COMPLETED,
INDEXING_IN_PROGRESS, COMPLETED in that order, so the persisted status
takes exactly the five values PENDING, OCR_IN_PROGRESS, OCR_COMPLETED,
INDEXING_IN_PROGRESS, COMPLETED in order, each committed before the next
transition, with no state skipped. -/
theorem pipeline_success_status_sequence (bucket : String) (db : List Document)
    (blobs : List (String × String)) (es : List (String × EsDocument))
    (file : UploadFile) (d now now2 s : String)
    (hb : bucket ≠ "") (hfresh : dbFind db d = none) :
    (upload_document (some bucket) db blobs file d (.ok ()) (.ok ()) now).task
      = some ⟨d, "gs://" ++ bucket ++ "/" ++ (d ++ "/" ++ file.filename),
              file.filename⟩ ∧
    (dbFind (upload_document (some bucket) db blobs file d (.ok ()) (.ok ()) now).db d).map
        Document.status = some ProcessingStatus.PENDING.value ∧
    ProcessingStatus.PENDING.value ::
      (process_document_pipeline
          (upload_document (some bucket) db blobs file d (.ok ()) (.ok ()) now).db es
          d ("gs://" ++ bucket ++ "/" ++ (d ++ "/" ++ file.filename)) file.filename
          (.ok s) (.ok ()) now2).committed
      = [ProcessingStatus.PENDING.value, ProcessingStatus.OCR_IN_PROGRESS.value,
         ProcessingStatus.OCR_COMPLETED.value, ProcessingStatus.INDEXING_IN_PROGRESS.value,
         ProcessingStatus.COMPLETED.value] := by
  have hUdb : (upload_document (some bucket) db blobs file d (.ok ()) (.ok ()) now).db
      = db ++ [newDocRow bucket file d now] := by
    simp [upload_document, hb, newDocRow]
  have hfind : dbFind (db ++ [newDocRow bucket file d now]) d
      = some (newDocRow bucket file d now) :=
    dbFind_append_fresh db _ d hfresh rfl
  refine ⟨?_, ?_, ?_⟩
  · simp [upload_document, hb]
  · rw [hUdb, hfind]
    rfl
  · rw [hUdb]
    simp [process_document_pipeline, hfind]

/-- Witness for C1 at a concrete input: uploading `uploadFileA` as id `a`
into bucket `bucket` over the empty database, then running the pipeline
with OCR text "hello". -/
theorem pipeline_success_status_sequence_witness :
    (upload_document (some "bucket") [] [] uploadFileA "a" (.ok ()) (.ok ()) "t").task
      = some ⟨"a", "gs://" ++ "bucket" ++ "/" ++ ("a" ++ "/" ++ uploadFileA.filename),
              uploadFileA.filename⟩ ∧
    (dbFind (upload_document (some "bucket") [] [] uploadFileA "a" (.ok ()) (.ok ()) "t").db "a").map
        Document.status = some ProcessingStatus.PENDING.value ∧
    ProcessingStatus.PENDING.value ::
      (process_document_pipeline
          (upload_document (some "bucket") [] [] uploadFileA "a" (.ok ()) (.ok ()) "t").db []
          "a" ("gs://" ++ "bucket" ++ "/" ++ ("a" ++ "/" ++ uploadFileA.filename))
          uploadFileA.filename (.ok "hello") (.ok ()) "t2").committed
      = [ProcessingStatus.PENDING.value, ProcessingStatus.OCR_IN_PROGRESS.value,
         ProcessingStatus.OCR_COMPLETED.value, ProcessingStatus.INDEXING_IN_PROGRESS.value,
         ProcessingStatus.COMPLETED.value] :=
  pipeline_success_status_sequence "bucket" [] [] [] uploadFileA "a" "t" "t2" "hello"
    (by decide) rfl

/-- Claim C10: one identifier `d` ties all artifacts of a successful
upload and pipeline run together: the id in the response body, the key of
the created Document row, the prefix of the blob-storage path, the id
carried by the scheduled task, and the key and document_id field of the
search-index record are all `d`. -/
theorem document_id_ties (bucket : String) (db : List Document)
    (blobs : List (String × String)) (es : List (String × EsDocument))
    (file : UploadFile) (d now now2 s : String)
    (hb : bucket ≠ "") (hfresh : dbFind db d = none)
    (hes : (es.filter (fun p => p.1 == d)).length ≤ 1) :
    (upload_document (some bucket) db blobs file d (.ok ()) (.ok ()) now).response
      = .ok ("Upload iniciado.", d) ∧
    (dbFind (upload_document (some bucket) db blobs file d (.ok ()) (.ok ()) now).db d).map
        Document.document_id = some d ∧
    (upload_document (some bucket) db blobs file d (.ok ()) (.ok ()) now).blobs
      = blobs ++ [(d ++ "/" ++ file.filename, file.content)] ∧
    (upload_document (some bucket) db blobs file d (.ok ()) (.ok ()) now).task
      = some ⟨d, "gs://" ++ bucket ++ "/" ++ (d ++ "/" ++ file.filename),
              file.filename⟩ ∧
    (process_document_pipeline
        (upload_document (some bucket) db blobs file d (.ok ()) (.ok ()) now).db es
        d ("gs://" ++ bucket ++ "/" ++ (d ++ "/" ++ file.filename)) file.filename
        (.ok s) (.ok ()) now2).es.filter (fun p => p.1 == d)
      = [(d, { document_id := d, filename := file.filename,
               gcs_uri := "gs://" ++ bucket ++ "/" ++ (d ++ "/" ++ file.filename),
               content := s, uploaded_at := now })] := by
  have hUdb : (upload_document (some bucket) db blobs file d (.ok ()) (.ok ()) now).db
      = db ++ [newDocRow bucket file d now] := by
    simp [upload_document, hb, newDocRow]
  have hfind : dbFind (db ++ [newDocRow bucket file d now]) d
      = some (newDocRow bucket file d now) :=
    dbFind_append_fresh db _ d hfresh rfl
  refine ⟨?_, ?_, ?_, ?_, ?_⟩
  · simp [upload_document, hb]
  · rw [hUdb, hfind]
    rfl
  · simp [upload_document, hb]
  · simp [upload_document, hb]
  · rw [hUdb]
    have hpp : (process_document_pipeline (db ++ [newDocRow bucket file d now]) es
        d ("gs://" ++ bucket ++ "/" ++ (d ++ "/" ++ file.filename)) file.filename
        (.ok s) (.ok ()) now2).es
      = esIndex es d
          { document_id := d, filename := file.filename,
            gcs_uri := "gs://" ++ bucket ++ "/" ++ (d ++ "/" ++ file.filename),
            content := s, uploaded_at := now } := by
      simp only [process_document_pipeline, hfind]
      simp [newDocRow]
    rw [hpp]
    exact esIndex_filter es d _ hes

/-- Witness for C10 at a concrete input: uploading `uploadFileA` as id `a`
into bucket `bucket` over the empty database and empty index, then running
the pipeline with OCR text "hello". -/
theorem document_id_ties_witness :
    (upload_document (some "bucket") [] [] uploadFileA "a" (.ok ()) (.ok ()) "t").response
      = .ok ("Upload iniciado.", "a") ∧
    (dbFind (upload_document (some "bucket") [] [] uploadFileA "a" (.ok ()) (.ok ()) "t").db "a").map
        Document.document_id = some "a" ∧
    (upload_document (some "bucket") [] [] uploadFileA "a" (.ok ()) (.ok ()) "t").blobs
      = [] ++ [("a" ++ "/" ++ uploadFileA.filename, uploadFileA.content)] ∧
    (upload_document (some "bucket") [] [] uploadFileA "a" (.ok ()) (.ok ()) "t").task
      = some ⟨"a", "gs://" ++ "bucket" ++ "/" ++ ("a" ++ "/" ++ uploadFileA.filename),
              uploadFileA.filename⟩ ∧
    (process_document_pipeline
        (upload_document (some "bucket") [] [] uploadFileA "a" (.ok ()) (.ok ()) "t").db []
        "a" ("gs://" ++ "bucket" ++ "/" ++ ("a" ++ "/" ++ uploadFileA.filename))
        uploadFileA.filename (.ok "hello") (.ok ()) "t2").es.filter (fun p => p.1 == "a")
      = [("a", { document_id := "a", filename := uploadFileA.filename,
                 gcs_uri := "gs://" ++ "bucket" ++ "/" ++ ("a" ++ "/" ++ uploadFileA.filename),
                 content := "hello", uploaded_at := "t" })] :=
  document_id_ties "bucket" [] [] [] uploadFileA "a" "t" "t2" "hello"
    (by decide) rfl (by simp)

end TheDump
